import Mathlib

/-!
# Verification of the certificate-generator service (src/app.py)

Shallow embedding of the one-file Flask application:

* `JVal` models the Python values that result from parsing a JSON request
  body, together with Python truthiness (`JVal.truthy`) and `dict.get`
  (`dictGet`).
* `DrawOp` models the fpdf drawing primitives used by the code; the layout
  methods `draw_background` and `add_user_data` of `CertificatePDF` become
  functions producing lists of `DrawOp`, parameterised by the string-width
  measurement primitive `measure` (fpdf's `get_string_width` at the current
  font) and by a flag `imageOk` telling whether loading the background image
  succeeds.
* `generate_certificate` models the `POST /generate-certificate` handler as a
  function of the parsed body (`none` when `request.get_json()` raises
  instead of returning a value: malformed JSON body, or missing JSON content
  type under Flask 2.1 and later), the drawn uuid string, the optional
  `BASE_URL` environment value, the inbound request's `url_root`, the
  measurement primitive and the background-image flag.  Its result records
  the HTTP response and the file written (path plus rendered content), if
  any.
-/

/-- Python values arising from JSON request bodies. -/
inductive JVal where
  | null : JVal
  | bool : Bool → JVal
  | num : ℚ → JVal
  | str : String → JVal
  | arr : List JVal → JVal
  | obj : List (String × JVal) → JVal

/-- Python truthiness on such values: `None`, `False`, `0`, `""`, `[]` and
`{}` are falsy, everything else is truthy. -/
def JVal.truthy : JVal → Bool
  | .null => false
  | .bool b => b
  | .num q => q != 0
  | .str s => s != ""
  | .arr xs => !xs.isEmpty
  | .obj kvs => !kvs.isEmpty

/-- Python `dict.get k`: the value bound to `k` (for a dict built from JSON,
the last binding wins), or `None` when the key is absent. -/
def dictGet (kvs : List (String × JVal)) (k : String) : JVal :=
  match (kvs.filter (fun p => p.1 == k)).getLast? with
  | some p => p.2
  | none => JVal.null

/-- Python `str()` as applied by f-string interpolation to a parsed JSON
value.  Strings render as themselves and booleans and `None` exactly as
Python renders them; a `num` with denominator 1 renders as the integer it
is.  `JVal.num` abstracts both Python ints and floats by one rational, so
the decimal rendering of a non-integer float is not recoverable from it,
and the renderings of containers depend on it in turn: for those cases the
definition fixes definite placeholder strings.  No theorem in this file
depends on the rendering of a non-string value — every truthy value takes
the same control path regardless of its rendering. -/
def JVal.pyStr : JVal → String
  | .null => "None"
  | .bool true => "True"
  | .bool false => "False"
  | .num q => if q.den = 1 then toString q.num else toString q
  | .str s => s
  | .arr _ => "<list>"
  | .obj _ => "<dict>"

/-- The fpdf drawing primitives invoked by `CertificatePDF`. -/
inductive DrawOp where
  | image : String → ℚ → ℚ → ℚ → ℚ → DrawOp
  | setFillColor : Nat → Nat → Nat → DrawOp
  | rect : ℚ → ℚ → ℚ → ℚ → String → DrawOp
  | setTextColor : Nat → Nat → Nat → DrawOp
  | setFont : String → String → ℚ → DrawOp
  | setXY : ℚ → ℚ → DrawOp
  | cell : ℚ → ℚ → String → Nat → Nat → String → DrawOp
  | write : ℚ → String → DrawOp
  | setLineWidth : ℚ → DrawOp
  | line : ℚ → ℚ → ℚ → ℚ → DrawOp
  | multiCell : ℚ → ℚ → String → String → DrawOp
deriving DecidableEq

/-- `CertificatePDF.draw_background`: place the background image full-page;
on any failure fall back to a flat rectangle plus a visible error label
(the exception is swallowed, not propagated). -/
def draw_background (bg_image_path : String) (imageOk : Bool) : List DrawOp :=
  if imageOk then
    [DrawOp.image bg_image_path 0 0 297 210]
  else
    [DrawOp.setFillColor 240 240 240,
     DrawOp.rect 0 0 297 210 "F",
     DrawOp.setTextColor 255 0 0,
     DrawOp.setFont "Arial" "B" 48,
     DrawOp.setXY 50 100,
     DrawOp.cell 0 10 "IMAGE NOT FOUND - CHECK PATH" 0 1 "C",
     DrawOp.setTextColor 0 0 0]

/-- The fixed body-text sentence template of `add_user_data`. -/
def main_text (course_name date_range : String) : String :=
  "for successfully completing the **" ++ course_name ++ "** course," ++
    " which ran from " ++ date_range ++ "."

/-- `CertificatePDF.add_user_data`: all dynamic text placed on the canvas.
`measure` stands for `get_string_width` at the current font
(Arial italic 36 when the name is measured). -/
def add_user_data (measure : String → ℚ) (user_name course_name date_range issue_date : String) :
    List DrawOp :=
  let name_width := measure user_name
  let page_center : ℚ := 297 / 2
  let x_center := page_center - name_width / 2
  let y_name : ℚ := 110
  let underline_y := y_name + 10
  let y_course : ℚ := 135
  let y_issue : ℚ := 175
  [DrawOp.setFont "Arial" "I" 36,
   DrawOp.setXY x_center y_name,
   DrawOp.write 10 user_name,
   DrawOp.setLineWidth (7/10),
   DrawOp.line x_center underline_y (x_center + name_width) underline_y,
   DrawOp.setFont "Arial" "" 18,
   DrawOp.setXY 50 y_course,
   DrawOp.multiCell 197 8 (main_text course_name date_range) "C",
   DrawOp.setFont "Arial" "" 14,
   DrawOp.setXY 200 y_issue,
   DrawOp.cell 0 10 ("Date Issued: " ++ issue_date) 0 1 "L"]

/-- The full sequence of draw operations of one `CertificatePDF`:
background first (constructor), then the user data. -/
def render_certificate (measure : String → ℚ) (imageOk : Bool)
    (user_name course_name date_range issue_date : String) : List DrawOp :=
  draw_background "certificate_bg.png" imageOk ++
    add_user_data measure user_name course_name date_range issue_date

/-- An HTTP response: status code plus the jsonify-ed JSON body. -/
structure HttpResponse where
  status : Nat
  body : JVal

/-- `jsonify({"error": msg})`. -/
def errBody (msg : String) : JVal :=
  JVal.obj [("error", JVal.str msg)]

/-- `jsonify({"status": ..., "message": ..., "downloadUrl": ...})`. -/
def successBody (downloadUrl : String) : JVal :=
  JVal.obj [("status", JVal.str "success"),
            ("message", JVal.str "Certificate generated successfully."),
            ("downloadUrl", JVal.str downloadUrl)]

/-- Outcome of one `POST /generate-certificate` request: the response sent,
and the file written (path and rendered content), if any. -/
structure GenOutcome where
  response : HttpResponse
  fileWritten : Option (String × List DrawOp)

/-- `os.path.join("static", "certificates")`. -/
def CERT_DIR : String := "static/certificates"

/-- The generated filename `f"certificate_{uuid.uuid4()}.pdf"`, as a function
of the drawn uuid string. -/
def mk_filename (uuidStr : String) : String :=
  "certificate_" ++ uuidStr ++ ".pdf"

/-- The error message of the missing-fields 400 response. -/
def missingFieldsMsg : String :=
  "Missing required fields (userName, courseName, dateRange, issueDate)"

/-- The `POST /generate-certificate` handler.

* `body` is the result of `request.get_json()`: `none` when the call raises
  instead of returning — `BadRequest` on a body that is not parseable as
  JSON, `UnsupportedMediaType` on a missing JSON content type (Flask 2.1
  and later).  Both exceptions are swallowed by the handler's
  `except Exception`, which answers 500; only a body that *parses* to a
  falsy value (`null`, `false`, `0`, `""`, `[]`, `{}`) reaches the
  `if not data` 400 branch.
* `uuidStr` is the string form of the uuid drawn for this request.
* `baseUrlEnv` is `os.environ.get("BASE_URL")`; `urlRoot` is
  `request.url_root`.
* Calling `.get` on a parsed body that is not a dict raises
  `AttributeError`, which the `except Exception` turns into the 500
  response.  Likewise `get_string_width(user_name)` and
  `write(10, user_name)` raise (before `pdf.output`) when `userName` is a
  truthy non-string, so no file is written there either; the other three
  fields appear only inside f-strings, which render any value via `str()`
  (`JVal.pyStr`), so they need not be strings. -/
def generate_certificate (body : Option JVal) (uuidStr : String)
    (baseUrlEnv : Option String) (urlRoot : String)
    (measure : String → ℚ) (imageOk : Bool) : GenOutcome :=
  match body with
  | none =>
      { response := { status := 500,
                      body := errBody "Internal server error during PDF generation" },
        fileWritten := none }
  | some data =>
      if data.truthy = false then
        { response := { status := 400, body := errBody "No JSON data provided" },
          fileWritten := none }
      else
        match data with
        | JVal.obj kvs =>
            let user_name := dictGet kvs "userName"
            let course_name := dictGet kvs "courseName"
            let date_range := dictGet kvs "dateRange"
            let issue_date := dictGet kvs "issueDate"
            if (user_name.truthy && course_name.truthy &&
                date_range.truthy && issue_date.truthy) = false then
              { response := { status := 400, body := errBody missingFieldsMsg },
                fileWritten := none }
            else
              match user_name with
              | JVal.str un =>
                  let filename := mk_filename uuidStr
                  let filepath := CERT_DIR ++ "/" ++ filename
                  let ops := render_certificate measure imageOk un
                    course_name.pyStr date_range.pyStr issue_date.pyStr
                  let base_url := baseUrlEnv.getD urlRoot
                  let download_url := base_url ++ "static/certificates/" ++ filename
                  { response := { status := 200, body := successBody download_url },
                    fileWritten := some (filepath, ops) }
              | _ =>
                  { response := { status := 500,
                                  body := errBody "Internal server error during PDF generation" },
                    fileWritten := none }
        | _ =>
            { response := { status := 500,
                            body := errBody "Internal server error during PDF generation" },
              fileWritten := none }

/-- Extract the `downloadUrl` field of a response body, when present. -/
def downloadUrlOf (r : HttpResponse) : Option String :=
  match r.body with
  | JVal.obj kvs =>
      match dictGet kvs "downloadUrl" with
      | JVal.str s => some s
      | _ => none
  | _ => none

/-- Does a response body have the shape `{"error": ...}`? -/
def isErrorBody : JVal → Bool
  | JVal.obj [("error", JVal.str _)] => true
  | _ => false

/-- A sample valid request body (the example of the spec), used in concrete
instances of the theorems below. -/
def sampleFields : List (String × JVal) :=
  [("userName", JVal.str "Jane Doe"),
   ("courseName", JVal.str "Systems Design"),
   ("dateRange", JVal.str "Jan 2024 - Mar 2024"),
   ("issueDate", JVal.str "2024-03-15")]

/-! ## Helper lemmas -/

/-- A key that `dict.get` resolves to a string can only come from a
non-empty dict. -/
theorem dictGet_str_ne_nil {kvs : List (String × JVal)} {k v : String}
    (h : dictGet kvs k = JVal.str v) : kvs.isEmpty = false := by
  cases kvs with
  | nil => simp [dictGet] at h
  | cons a t => rfl

/-- On a request whose four fields resolve to non-empty strings, the handler
takes the success path: 200 response carrying the composed download URL, and
the rendered certificate written at the derived path. -/
theorem generate_success (kvs : List (String × JVal)) (un cn dr isd u : String)
    (e : Option String) (root : String) (measure : String → ℚ) (imageOk : Bool)
    (h1 : dictGet kvs "userName" = JVal.str un) (hu : un ≠ "")
    (h2 : dictGet kvs "courseName" = JVal.str cn) (hc : cn ≠ "")
    (h3 : dictGet kvs "dateRange" = JVal.str dr) (hd : dr ≠ "")
    (h4 : dictGet kvs "issueDate" = JVal.str isd) (hi : isd ≠ "") :
    generate_certificate (some (JVal.obj kvs)) u e root measure imageOk =
      { response :=
          { status := 200,
            body := successBody ((e.getD root) ++ "static/certificates/" ++ mk_filename u) },
        fileWritten := some (CERT_DIR ++ "/" ++ mk_filename u,
          render_certificate measure imageOk un cn dr isd) } := by
  have hne : kvs.isEmpty = false := dictGet_str_ne_nil h1
  simp [generate_certificate, JVal.truthy, JVal.pyStr, hne, h1, h2, h3, h4, hu, hc, hd, hi,
    bne_iff_ne]

/-! ## Claims about the layout engine -/

/-- C1: for a recipient name of measured width `w` at the italic 36pt font,
`add_user_data` sets the cursor to the left offset `148.5 - w/2` at the
name's anchor `y = 110`, writes the name there, and draws an underline from
`offset` to `offset + w` at `y + 10`, with line width 0.7. -/
theorem name_centering_exact (measure : String → ℚ) (n c d i : String) (w : ℚ)
    (hw : measure n = w) :
    (add_user_data measure n c d i)[0]? = some (DrawOp.setFont "Arial" "I" 36) ∧
    (add_user_data measure n c d i)[1]? = some (DrawOp.setXY (148.5 - w / 2) 110) ∧
    (add_user_data measure n c d i)[2]? = some (DrawOp.write 10 n) ∧
    (add_user_data measure n c d i)[3]? = some (DrawOp.setLineWidth 0.7) ∧
    (add_user_data measure n c d i)[4]? =
      some (DrawOp.line (148.5 - w / 2) (110 + 10) (148.5 - w / 2 + w) (110 + 10)) := by
  have hc : (148.5 : ℚ) - w / 2 = 297 / 2 - w / 2 := by norm_num
  have hl : (0.7 : ℚ) = 7 / 10 := by norm_num
  subst hw
  refine ⟨?_, ?_, ?_, ?_, ?_⟩ <;> simp [add_user_data, hc, hl]

/-- C1 witness: instance at a concrete measure function and name. -/
theorem name_centering_exact_witness :
    (add_user_data (fun _ => 100) "Jane Doe" "c" "d" "i")[0]? =
      some (DrawOp.setFont "Arial" "I" 36) ∧
    (add_user_data (fun _ => 100) "Jane Doe" "c" "d" "i")[1]? =
      some (DrawOp.setXY (148.5 - 100 / 2) 110) ∧
    (add_user_data (fun _ => 100) "Jane Doe" "c" "d" "i")[2]? =
      some (DrawOp.write 10 "Jane Doe") ∧
    (add_user_data (fun _ => 100) "Jane Doe" "c" "d" "i")[3]? =
      some (DrawOp.setLineWidth 0.7) ∧
    (add_user_data (fun _ => 100) "Jane Doe" "c" "d" "i")[4]? =
      some (DrawOp.line (148.5 - 100 / 2) (110 + 10) (148.5 - 100 / 2 + 100) (110 + 10)) :=
  name_centering_exact (fun _ => 100) "Jane Doe" "c" "d" "i" 100 rfl

/-- C7: the body text is rendered as a wrapped, center-aligned block of
width exactly 197 starting at the fixed cursor position (50, 135) at font
size 18, and the issue date as a single left-aligned cell at the fixed
right-side position (200, 175) at font size 14; these positions and sizes
are the same constants for every input. -/
theorem fixed_body_and_date_layout (measure : String → ℚ) (n c d i : String) :
    DrawOp.setFont "Arial" "" 18 ∈ add_user_data measure n c d i ∧
    DrawOp.setXY 50 135 ∈ add_user_data measure n c d i ∧
    DrawOp.multiCell 197 8 (main_text c d) "C" ∈ add_user_data measure n c d i ∧
    DrawOp.setFont "Arial" "" 14 ∈ add_user_data measure n c d i ∧
    DrawOp.setXY 200 175 ∈ add_user_data measure n c d i ∧
    DrawOp.cell 0 10 ("Date Issued: " ++ i) 0 1 "L" ∈ add_user_data measure n c d i := by
  refine ⟨?_, ?_, ?_, ?_, ?_, ?_⟩ <;> simp [add_user_data]

/-- C10: no clamping of the computed name offset: when the measured width
exceeds the 297-unit canvas width, the computed left offset `148.5 - w/2`
is negative and the underline's right endpoint `148.5 - w/2 + w` exceeds
297, and those are exactly the coordinates emitted by `add_user_data`. -/
theorem name_no_clamping (measure : String → ℚ) (n c d i : String) (w : ℚ)
    (hw : measure n = w) (hbig : 297 < w) :
    (148.5 - w / 2 < 0 ∧ 297 < 148.5 - w / 2 + w) ∧
    DrawOp.setXY (148.5 - w / 2) 110 ∈ add_user_data measure n c d i ∧
    DrawOp.line (148.5 - w / 2) (110 + 10) (148.5 - w / 2 + w) (110 + 10) ∈
      add_user_data measure n c d i := by
  have hc : (148.5 : ℚ) - w / 2 = 297 / 2 - w / 2 := by norm_num
  subst hw
  refine ⟨⟨by linarith [hbig], by linarith [hbig]⟩, ?_, ?_⟩ <;>
    simp [add_user_data, hc]

/-- C10 witness: instance at a 400-unit-wide name. -/
theorem name_no_clamping_witness :
    ((148.5 : ℚ) - 400 / 2 < 0 ∧ 297 < (148.5 : ℚ) - 400 / 2 + 400) ∧
    DrawOp.setXY (148.5 - 400 / 2) 110 ∈
      add_user_data (fun _ => 400) "N" "c" "d" "i" ∧
    DrawOp.line (148.5 - 400 / 2) (110 + 10) (148.5 - 400 / 2 + 400) (110 + 10) ∈
      add_user_data (fun _ => 400) "N" "c" "d" "i" :=
  name_no_clamping (fun _ => 400) "N" "c" "d" "i" 400 rfl (by decide)

/-! ## Claims about the request handler -/

/-- C2: a request in which one of the four required fields is absent
(`dict.get` yields `None`) or bound to the empty string is answered with a
400 client error carrying an `{error}` body, and no file is written. -/
theorem missing_field_rejected (kvs : List (String × JVal)) (u : String)
    (e : Option String) (root : String) (measure : String → ℚ) (imageOk : Bool)
    (f : String) (hf : f ∈ ["userName", "courseName", "dateRange", "issueDate"])
    (hmiss : dictGet kvs f = JVal.null ∨ dictGet kvs f = JVal.str "") :
    (generate_certificate (some (JVal.obj kvs)) u e root measure imageOk).response.status = 400 ∧
    isErrorBody
      (generate_certificate (some (JVal.obj kvs)) u e root measure imageOk).response.body = true ∧
    (generate_certificate (some (JVal.obj kvs)) u e root measure imageOk).fileWritten = none := by
  have hft : (dictGet kvs f).truthy = false := by
    rcases hmiss with h | h <;> rw [h] <;> rfl
  by_cases hk : kvs.isEmpty
  · have hobj : (JVal.obj kvs).truthy = false := by simp [JVal.truthy, hk]
    simp [generate_certificate, hobj, isErrorBody, errBody]
  · have hobj : (JVal.obj kvs).truthy = true := by simp [JVal.truthy, hk]
    simp only [List.mem_cons, List.not_mem_nil, or_false] at hf
    rcases hf with rfl | rfl | rfl | rfl <;>
      simp [generate_certificate, hobj, hft, isErrorBody, errBody]

/-- C2 witness: a request carrying only `userName` is rejected with 400 and
writes nothing. -/
theorem missing_field_rejected_witness :
    (generate_certificate (some (JVal.obj [("userName", JVal.str "Jane Doe")])) "u1" none
        "http://127.0.0.1:5000/" (fun _ => 80) true).response.status = 400 ∧
    isErrorBody
      (generate_certificate (some (JVal.obj [("userName", JVal.str "Jane Doe")])) "u1" none
        "http://127.0.0.1:5000/" (fun _ => 80) true).response.body = true ∧
    (generate_certificate (some (JVal.obj [("userName", JVal.str "Jane Doe")])) "u1" none
        "http://127.0.0.1:5000/" (fun _ => 80) true).fileWritten = none :=
  missing_field_rejected [("userName", JVal.str "Jane Doe")] "u1" none
    "http://127.0.0.1:5000/" (fun _ => 80) true "courseName" (by decide) (Or.inl rfl)

/-- C9: field presence is checked by Python truthiness: a request binding any
required field to any falsy value is answered exactly like a request missing
the field (the missing-fields 400 outcome), while a request whose four
fields are all truthy is never answered with a 400. -/
theorem truthiness_validation (kvs : List (String × JVal)) (u : String)
    (e : Option String) (root : String) (measure : String → ℚ) (imageOk : Bool) :
    (∀ f ∈ ["userName", "courseName", "dateRange", "issueDate"],
        (dictGet kvs f).truthy = false → kvs.isEmpty = false →
          generate_certificate (some (JVal.obj kvs)) u e root measure imageOk =
            { response := { status := 400, body := errBody missingFieldsMsg },
              fileWritten := none }) ∧
    ((dictGet kvs "userName").truthy = true → (dictGet kvs "courseName").truthy = true →
      (dictGet kvs "dateRange").truthy = true → (dictGet kvs "issueDate").truthy = true →
      (generate_certificate (some (JVal.obj kvs)) u e root measure imageOk).response.status ≠ 400) := by
  constructor
  · intro f hf hft hk
    have hobj : (JVal.obj kvs).truthy = true := by simp [JVal.truthy, hk]
    simp only [List.mem_cons, List.not_mem_nil, or_false] at hf
    rcases hf with rfl | rfl | rfl | rfl <;>
      simp [generate_certificate, hobj, hft]
  · intro t1 t2 t3 t4
    have hne : kvs.isEmpty = false := by
      cases kvs with
      | nil => simp [dictGet, JVal.truthy] at t1
      | cons a t => rfl
    have hobj : (JVal.obj kvs).truthy = true := by simp [JVal.truthy, hne]
    simp only [generate_certificate, hobj, t1, t2, t3, t4, Bool.true_and, Bool.and_self]
    split
    · simp_all
    · split <;> simp

/-- C9 witness: binding `userName` to the falsy number `0` yields exactly
the missing-fields 400 outcome. -/
theorem truthiness_validation_witness :
    generate_certificate
        (some (JVal.obj [("userName", JVal.num 0),
          ("courseName", JVal.str "Systems Design"),
          ("dateRange", JVal.str "Jan 2024 - Mar 2024"),
          ("issueDate", JVal.str "2024-03-15")]))
        "u3" none "http://127.0.0.1:5000/" (fun _ => 80) true =
      { response := { status := 400, body := errBody missingFieldsMsg },
        fileWritten := none } :=
  (truthiness_validation
      [("userName", JVal.num 0),
       ("courseName", JVal.str "Systems Design"),
       ("dateRange", JVal.str "Jan 2024 - Mar 2024"),
       ("issueDate", JVal.str "2024-03-15")]
      "u3" none "http://127.0.0.1:5000/" (fun _ => 80) true).1
    "userName" (by decide) rfl rfl

/-- C4 counterexample: the claimed 400 fails in both directions the code
actually takes.  The body `[1]` is valid JSON but not a JSON object, and is
answered 500 (the `.get` attribute error is caught by the generic `except`
clause); an unparseable body makes `get_json` raise, which the same
`except` clause also answers with 500. -/
theorem malformed_body_counterexample :
    ((generate_certificate (some (JVal.arr [JVal.num 1])) "u4" none
        "http://127.0.0.1:5000/" (fun _ => 80) true).response.status = 500 ∧
      ¬ (generate_certificate (some (JVal.arr [JVal.num 1])) "u4" none
        "http://127.0.0.1:5000/" (fun _ => 80) true).response.status = 400) ∧
    ((generate_certificate none "u4" none
        "http://127.0.0.1:5000/" (fun _ => 80) true).response.status = 500 ∧
      ¬ (generate_certificate none "u4" none
        "http://127.0.0.1:5000/" (fun _ => 80) true).response.status = 400) :=
  ⟨⟨rfl, by decide⟩, ⟨rfl, by decide⟩⟩

/-- C4 amended: a request whose body parses to a falsy JSON value (`null`,
`false`, `0`, `""`, `[]`, `{}`) is answered 400 with an `{error}` body; a
request whose body is absent or unparseable (`get_json` raises before the
`if not data` check) and a request whose body parses to a truthy value that
is not a JSON object are instead answered 500 with an `{error}` body.  In
every such case no file is written. -/
theorem malformed_body_handling (body : Option JVal) (u : String) (e : Option String)
    (root : String) (measure : String → ℚ) (imageOk : Bool) :
    ((∃ v, body = some v ∧ v.truthy = false) →
      (generate_certificate body u e root measure imageOk).response.status = 400 ∧
      isErrorBody (generate_certificate body u e root measure imageOk).response.body = true ∧
      (generate_certificate body u e root measure imageOk).fileWritten = none) ∧
    (body = none →
      (generate_certificate body u e root measure imageOk).response.status = 500 ∧
      isErrorBody (generate_certificate body u e root measure imageOk).response.body = true ∧
      (generate_certificate body u e root measure imageOk).fileWritten = none) ∧
    (∀ v, body = some v → v.truthy = true → (∀ kvs, v ≠ JVal.obj kvs) →
      (generate_certificate body u e root measure imageOk).response.status = 500 ∧
      isErrorBody (generate_certificate body u e root measure imageOk).response.body = true ∧
      (generate_certificate body u e root measure imageOk).fileWritten = none) := by
  refine ⟨?_, ?_, ?_⟩
  · rintro ⟨v, rfl, hv⟩
    simp [generate_certificate, hv, isErrorBody, errBody]
  · rintro rfl
    exact ⟨rfl, rfl, rfl⟩
  · rintro v rfl hv hno
    cases v with
    | obj kvs => exact absurd rfl (hno kvs)
    | null => simp [JVal.truthy] at hv
    | bool b => simp [generate_certificate, hv, isErrorBody, errBody]
    | num q => simp [generate_certificate, hv, isErrorBody, errBody]
    | str s => simp [generate_certificate, hv, isErrorBody, errBody]
    | arr xs => simp [generate_certificate, hv, isErrorBody, errBody]

/-- C4 amended witness: the falsy body `{}` is answered 400 with an
`{error}` body and no file. -/
theorem malformed_body_handling_witness :
    (generate_certificate (some (JVal.obj [])) "u5" none "http://127.0.0.1:5000/"
        (fun _ => 80) true).response.status = 400 ∧
    isErrorBody (generate_certificate (some (JVal.obj [])) "u5" none "http://127.0.0.1:5000/"
        (fun _ => 80) true).response.body = true ∧
    (generate_certificate (some (JVal.obj [])) "u5" none "http://127.0.0.1:5000/"
        (fun _ => 80) true).fileWritten = none :=
  (malformed_body_handling (some (JVal.obj [])) "u5" none "http://127.0.0.1:5000/"
      (fun _ => 80) true).1 ⟨JVal.obj [], rfl, rfl⟩

/-- Whenever the handler writes a file, its path is the certificates
directory joined with `certificate_<uuid>.pdf`; in particular the path
depends on nothing but the drawn uuid. -/
theorem fileWritten_path (body : Option JVal) (u : String) (e : Option String)
    (root : String) (measure : String → ℚ) (imageOk : Bool) (f : String × List DrawOp)
    (h : (generate_certificate body u e root measure imageOk).fileWritten = some f) :
    f.1 = CERT_DIR ++ "/" ++ mk_filename u := by
  cases body with
  | none => simp [generate_certificate] at h
  | some data =>
    cases data with
    | obj kvs =>
      simp only [generate_certificate] at h
      split at h
      · simp at h
      · split at h
        · simp at h
        · split at h
          · have hp := Option.some.inj h
            rw [← hp]
          · simp at h
    | null => simp [generate_certificate, JVal.truthy] at h
    | bool b =>
      simp only [generate_certificate] at h
      split at h <;> simp at h
    | num q =>
      simp only [generate_certificate] at h
      split at h <;> simp at h
    | str s =>
      simp only [generate_certificate] at h
      split at h <;> simp at h
    | arr xs =>
      simp only [generate_certificate] at h
      split at h <;> simp at h

/-- Left-cancellation of string concatenation. -/
theorem append_l_cancel (x a b : String) (h : x ++ a = x ++ b) : a = b := by
  have hd := congrArg String.data h
  simp only [String.data_append] at hd
  exact String.ext (List.append_cancel_left hd)

/-- Middle-cancellation of string concatenation. -/
theorem append_middle_cancel (x y a b : String)
    (h : x ++ a ++ y = x ++ b ++ y) : a = b := by
  have hd := congrArg String.data h
  simp only [String.data_append, List.append_assoc] at hd
  exact String.ext (List.append_cancel_right (List.append_cancel_left hd))

/-- C6: any two requests that each result in a written file, drawn with
distinct uuids, write to distinct paths, whatever their input fields: the
filename is a function of the uuid alone, so identical inputs are never
deduplicated. -/
theorem distinct_uuid_distinct_filename (b1 b2 : Option JVal) (u1 u2 : String)
    (e1 e2 : Option String) (r1 r2 : String) (m1 m2 : String → ℚ) (i1 i2 : Bool)
    (f1 f2 : String × List DrawOp)
    (h1 : (generate_certificate b1 u1 e1 r1 m1 i1).fileWritten = some f1)
    (h2 : (generate_certificate b2 u2 e2 r2 m2 i2).fileWritten = some f2)
    (hu : u1 ≠ u2) : f1.1 ≠ f2.1 := by
  have p1 := fileWritten_path b1 u1 e1 r1 m1 i1 f1 h1
  have p2 := fileWritten_path b2 u2 e2 r2 m2 i2 f2 h2
  rw [p1, p2]
  intro heq
  apply hu
  have hm : mk_filename u1 = mk_filename u2 :=
    append_l_cancel (CERT_DIR ++ "/") (mk_filename u1) (mk_filename u2) heq
  simp only [mk_filename] at hm
  exact append_middle_cancel "certificate_" ".pdf" u1 u2 hm

/-- C6 witness: the sample request issued twice with distinct uuids writes
two distinct file paths. -/
theorem distinct_uuid_distinct_filename_witness :
    (((generate_certificate (some (JVal.obj sampleFields)) "aaa" none
        "http://127.0.0.1:5000/" (fun _ => 80) true).fileWritten).getD ("", [])).1 ≠
    (((generate_certificate (some (JVal.obj sampleFields)) "bbb" none
        "http://127.0.0.1:5000/" (fun _ => 80) true).fileWritten).getD ("", [])).1 :=
  distinct_uuid_distinct_filename
    (some (JVal.obj sampleFields)) (some (JVal.obj sampleFields)) "aaa" "bbb"
    none none "http://127.0.0.1:5000/" "http://127.0.0.1:5000/"
    (fun _ => 80) (fun _ => 80) true true _ _ rfl rfl (by decide)

/-- C3: when the background image cannot be loaded, the request still
succeeds: 200 response, the certificate file is written, and its rendered
content contains the flat fallback rectangle covering the whole 297x210
canvas plus the visible error label, instead of a propagated failure. -/
theorem background_fallback (kvs : List (String × JVal)) (un cn dr isd u : String)
    (e : Option String) (root : String) (measure : String → ℚ)
    (h1 : dictGet kvs "userName" = JVal.str un) (hu : un ≠ "")
    (h2 : dictGet kvs "courseName" = JVal.str cn) (hc : cn ≠ "")
    (h3 : dictGet kvs "dateRange" = JVal.str dr) (hd : dr ≠ "")
    (h4 : dictGet kvs "issueDate" = JVal.str isd) (hi : isd ≠ "") :
    (generate_certificate (some (JVal.obj kvs)) u e root measure false).response.status = 200 ∧
    (generate_certificate (some (JVal.obj kvs)) u e root measure false).fileWritten =
      some (CERT_DIR ++ "/" ++ mk_filename u,
        render_certificate measure false un cn dr isd) ∧
    DrawOp.setFillColor 240 240 240 ∈ render_certificate measure false un cn dr isd ∧
    DrawOp.rect 0 0 297 210 "F" ∈ render_certificate measure false un cn dr isd ∧
    DrawOp.cell 0 10 "IMAGE NOT FOUND - CHECK PATH" 0 1 "C" ∈
      render_certificate measure false un cn dr isd := by
  have hs := generate_success kvs un cn dr isd u e root measure false h1 hu h2 hc h3 hd h4 hi
  rw [hs]
  refine ⟨rfl, rfl, ?_, ?_, ?_⟩ <;> simp [render_certificate, draw_background]

/-- C3 witness: the sample request with an unreadable background image. -/
theorem background_fallback_witness :
    (generate_certificate (some (JVal.obj sampleFields)) "u6" none
        "http://127.0.0.1:5000/" (fun _ => 80) false).response.status = 200 ∧
    (generate_certificate (some (JVal.obj sampleFields)) "u6" none
        "http://127.0.0.1:5000/" (fun _ => 80) false).fileWritten =
      some (CERT_DIR ++ "/" ++ mk_filename "u6",
        render_certificate (fun _ => 80) false "Jane Doe" "Systems Design"
          "Jan 2024 - Mar 2024" "2024-03-15") ∧
    DrawOp.setFillColor 240 240 240 ∈ render_certificate (fun _ => 80) false
      "Jane Doe" "Systems Design" "Jan 2024 - Mar 2024" "2024-03-15" ∧
    DrawOp.rect 0 0 297 210 "F" ∈ render_certificate (fun _ => 80) false
      "Jane Doe" "Systems Design" "Jan 2024 - Mar 2024" "2024-03-15" ∧
    DrawOp.cell 0 10 "IMAGE NOT FOUND - CHECK PATH" 0 1 "C" ∈
      render_certificate (fun _ => 80) false "Jane Doe" "Systems Design"
        "Jan 2024 - Mar 2024" "2024-03-15" :=
  background_fallback sampleFields "Jane Doe" "Systems Design"
    "Jan 2024 - Mar 2024" "2024-03-15" "u6" none "http://127.0.0.1:5000/"
    (fun _ => 80) rfl (by decide) rfl (by decide) rfl (by decide) rfl (by decide)

/-- C5: for every successful request, the downloadUrl is the configured base
url (the `BASE_URL` environment value when present, otherwise the request's
own `url_root`) followed by `static/certificates/` followed by
`certificate_<uuid>.pdf` — so it ends in `.pdf` — and the file is written
under the corresponding storage path. -/
theorem success_download_url (kvs : List (String × JVal)) (un cn dr isd u : String)
    (e : Option String) (root : String) (measure : String → ℚ) (imageOk : Bool)
    (h1 : dictGet kvs "userName" = JVal.str un) (hu : un ≠ "")
    (h2 : dictGet kvs "courseName" = JVal.str cn) (hc : cn ≠ "")
    (h3 : dictGet kvs "dateRange" = JVal.str dr) (hd : dr ≠ "")
    (h4 : dictGet kvs "issueDate" = JVal.str isd) (hi : isd ≠ "") :
    (generate_certificate (some (JVal.obj kvs)) u e root measure imageOk).response.status = 200 ∧
    downloadUrlOf (generate_certificate (some (JVal.obj kvs)) u e root measure imageOk).response =
      some (e.getD root ++ "static/certificates/" ++ mk_filename u) ∧
    e.getD root ++ "static/certificates/" ++ mk_filename u =
      (e.getD root ++ "static/certificates/" ++ "certificate_" ++ u) ++ ".pdf" ∧
    (generate_certificate (some (JVal.obj kvs)) u e root measure imageOk).fileWritten =
      some (CERT_DIR ++ "/" ++ mk_filename u,
        render_certificate measure imageOk un cn dr isd) := by
  have hs := generate_success kvs un cn dr isd u e root measure imageOk h1 hu h2 hc h3 hd h4 hi
  rw [hs]
  refine ⟨rfl, rfl, ?_, rfl⟩
  simp only [mk_filename, String.append_assoc]

/-- C5 witness: the sample request, with no BASE_URL configured. -/
theorem success_download_url_witness :
    (generate_certificate (some (JVal.obj sampleFields)) "123e4567" none
        "http://127.0.0.1:5000/" (fun _ => 80) true).response.status = 200 ∧
    downloadUrlOf (generate_certificate (some (JVal.obj sampleFields)) "123e4567" none
        "http://127.0.0.1:5000/" (fun _ => 80) true).response =
      some ((none : Option String).getD "http://127.0.0.1:5000/" ++
        "static/certificates/" ++ mk_filename "123e4567") ∧
    (none : Option String).getD "http://127.0.0.1:5000/" ++
        "static/certificates/" ++ mk_filename "123e4567" =
      ((none : Option String).getD "http://127.0.0.1:5000/" ++
        "static/certificates/" ++ "certificate_" ++ "123e4567") ++ ".pdf" ∧
    (generate_certificate (some (JVal.obj sampleFields)) "123e4567" none
        "http://127.0.0.1:5000/" (fun _ => 80) true).fileWritten =
      some (CERT_DIR ++ "/" ++ mk_filename "123e4567",
        render_certificate (fun _ => 80) true "Jane Doe" "Systems Design"
          "Jan 2024 - Mar 2024" "2024-03-15") :=
  success_download_url sampleFields "Jane Doe" "Systems Design"
    "Jan 2024 - Mar 2024" "2024-03-15" "123e4567" none "http://127.0.0.1:5000/"
    (fun _ => 80) true rfl (by decide) rfl (by decide) rfl (by decide) rfl (by decide)

/-- C8: when BASE_URL is set, the downloadUrl is the exact concatenation of
the BASE_URL value and `static/certificates/certificate_<uuid>.pdf`: at the
character level nothing — in particular no `/` — is inserted between the
two, whatever the BASE_URL value's last character. -/
theorem base_url_no_separator (kvs : List (String × JVal)) (un cn dr isd u : String)
    (b root : String) (measure : String → ℚ) (imageOk : Bool)
    (h1 : dictGet kvs "userName" = JVal.str un) (hu : un ≠ "")
    (h2 : dictGet kvs "courseName" = JVal.str cn) (hc : cn ≠ "")
    (h3 : dictGet kvs "dateRange" = JVal.str dr) (hd : dr ≠ "")
    (h4 : dictGet kvs "issueDate" = JVal.str isd) (hi : isd ≠ "") :
    downloadUrlOf
        (generate_certificate (some (JVal.obj kvs)) u (some b) root measure imageOk).response =
      some (b ++ "static/certificates/" ++ mk_filename u) ∧
    (b ++ "static/certificates/" ++ mk_filename u).data =
      b.data ++ ("static/certificates/" ++ mk_filename u).data := by
  have hs := generate_success kvs un cn dr isd u (some b) root measure imageOk
    h1 hu h2 hc h3 hd h4 hi
  rw [hs]
  constructor
  · rfl
  · simp [String.data_append, List.append_assoc]

/-- C8 witness: BASE_URL set to a value without a trailing slash. -/
theorem base_url_no_separator_witness :
    downloadUrlOf
        (generate_certificate (some (JVal.obj sampleFields)) "u7"
          (some "https://certs.example.com") "http://127.0.0.1:5000/"
          (fun _ => 80) true).response =
      some ("https://certs.example.com" ++ "static/certificates/" ++ mk_filename "u7") ∧
    ("https://certs.example.com" ++ "static/certificates/" ++ mk_filename "u7").data =
      "https://certs.example.com".data ++
        ("static/certificates/" ++ mk_filename "u7").data :=
  base_url_no_separator sampleFields "Jane Doe" "Systems Design"
    "Jan 2024 - Mar 2024" "2024-03-15" "u7" "https://certs.example.com"
    "http://127.0.0.1:5000/" (fun _ => 80) true
    rfl (by decide) rfl (by decide) rfl (by decide) rfl (by decide)
